import Mathlib

/-!
Shallow embedding of the core of the constellation-backend repository
(auth service: `services/auth_service/app/auth_logic.py`; expense service:
`services/expense_service/app/logic.py`; shared pydantic models:
`packages/shared_models/models.py`, `services/expense_service/app/models.py`).

Modelling conventions:
* Mongo ObjectIds are natural numbers (`OId`); `ObjectId(x)` applied to an
  already-valid id is the identity and is dropped.
* Mongo collections are Lean lists of typed records carrying exactly the
  fields the embedded logic reads or writes.  `find_one` is "first element
  satisfying the filter", `update_one` / `find_one_and_update` /
  `find_one_and_delete` / `delete_one` act on the first match, matching
  MongoDB's single-document semantics on these queries.
* Currency amounts are integers (`Int`).  The source stores Python floats,
  but every balance computation in the source is a plain `+`/`-`, so the
  embedding is exact arithmetic; float rounding is out of scope.
* `datetime` values appear at two granularities.  Calendar-window logic
  (transaction dates and `[start_of_month, start_of_next_month)` filters)
  uses `Date`, a lexicographic pair (month index, tick within the month),
  so that `relativedelta(months=1)` applied to a month start is exactly
  the next month start.  Instant-offset logic (session expiry,
  `now + timedelta(...)`) uses `Time := Int`.
* Fallible endpoints return `Except PyErr α`; state-mutating endpoints
  return `Except PyErr α × DB`, where the returned `DB` is the post state
  even on the error path (FastAPI's `HTTPException` aborts the request,
  but database writes already issued stay applied).
* A raised Python `AttributeError` (attribute lookup on a pydantic model
  that does not declare the attribute) is `PyErr.attributeError`; it is
  raised while the query document is being built, i.e. before any
  database read or write of that statement.
-/

namespace Constellation

/-- Mongo ObjectId, modelled as a natural number. -/
abbrev OId := Nat

/-- Abstract instant on the timeline (used where the source only offsets and
compares `datetime` values: session expiry, token lifetimes). -/
abbrev Time := Int

/-- A `datetime` at calendar granularity: a month index (`12*year + month`)
plus an arbitrary tick inside that month, ordered lexicographically.
`relativedelta(months=1)` on a month start is `monthIdx + 1`. -/
structure Date where
  monthIdx : Int
  tick : Nat
deriving DecidableEq, Repr

/-- Comparison `a <= b` on calendar datetimes (lexicographic). -/
def Date.leb (a b : Date) : Bool :=
  decide (a.monthIdx < b.monthIdx) ||
    (decide (a.monthIdx = b.monthIdx) && decide (a.tick ≤ b.tick))

/-- Comparison `a < b` on calendar datetimes (lexicographic). -/
def Date.ltb (a b : Date) : Bool :=
  decide (a.monthIdx < b.monthIdx) ||
    (decide (a.monthIdx = b.monthIdx) && decide (a.tick < b.tick))

/-- Embeds `datetime(year, month, 1, tzinfo=utc)`: the start of a calendar month. -/
def month_start (year month : Int) : Date := ⟨12 * year + month, 0⟩

/-- Embeds `relativedelta(months=k)` added to a date. -/
def Date.add_months (d : Date) (k : Int) : Date := ⟨d.monthIdx + k, d.tick⟩

/-- A FastAPI `HTTPException`: status code and detail message. -/
structure HErr where
  status : Nat
  detail : String
deriving DecidableEq, Repr

/-- An error escaping an endpoint: either a raised `HTTPException` or a
raised Python `AttributeError` on the named attribute. -/
inductive PyErr where
  | http (e : HErr)
  | attributeError (name : String)
deriving DecidableEq, Repr

/-- Embeds `collection.find_one(filter)`: first document matching the filter. -/
def find_one (l : List α) (p : α → Bool) : Option α := l.find? p

/-- Embeds `collection.update_one(filter, update)`: rewrite the first matching
document with `f`, leave the rest untouched. -/
def update_first : List α → (α → Bool) → (α → α) → List α
  | [], _, _ => []
  | x :: xs, p, f => if p x then f x :: xs else x :: update_first xs p f

/-- Embeds `collection.delete_one(filter)`: drop the first matching document. -/
def delete_first : List α → (α → Bool) → List α
  | [], _ => []
  | x :: xs, p => if p x then xs else x :: delete_first xs p

/-- Embeds `collection.find_one_and_delete(filter)`: atomically return the first
matching document (if any) and the collection with it removed. -/
def find_one_and_delete (l : List α) (p : α → Bool) : Option α × List α :=
  (l.find? p, delete_first l p)

/-- Embeds `collection.find_one_and_update(filter, {"$set": ...},
return_document=AFTER)`: rewrite the first match with `f` and return the
rewritten document. -/
def find_one_and_update (l : List α) (p : α → Bool) (f : α → α) :
    Option α × List α :=
  ((l.find? p).map f, update_first l p f)

/-! ## Data model (pydantic models and stored documents) -/

/-- Model `UserInDB` (packages/shared_models/models.py lines 38-54): pydantic v2
model with declared fields `email`, `first_name`, `last_name`, `verified`,
`created_at`, `updated_at`, `id` (populated from the Mongo key via
`Field(alias="_id")`), `hashed_password`. -/
structure UserInDB where
  id : OId
  email : String
  first_name : Option String := none
  last_name : Option String := none
  verified : Bool
  created_at : Time := 0
  updated_at : Time := 0
  hashed_password : String
deriving DecidableEq, Repr

/-- Python attribute access for id-valued attributes of a `UserInDB`.
Pydantic v2 resolves attribute access through the *declared field names*
(here `id`); an alias such as `"_id"` only steers validation and
serialization and is not an attribute, and `UserInDB` declares no `_id`
property and no `extra="allow"` config, so `user._id` raises
`AttributeError` (unlike e.g. `TransactionPublic`, which does declare an
`_id` property in services/expense_service/app/models.py). -/
def UserInDB.id_attr (u : UserInDB) (name : String) : Option OId :=
  if name = "id" then some u.id else none

/-- An `accounts` collection document (created by `create_account`,
logic.py lines 34-56). -/
structure Account where
  id : OId
  name : String
  type : String
  initial_balance : Int
  user_id : Option OId
  group_id : Option OId
  balance : Int
  is_archived : Bool
deriving DecidableEq, Repr

/-- A `categories` collection document. -/
structure CategoryDoc where
  id : OId
  name : String
  type : String
  icon : Option String := none
  color : Option String := none
  user_id : Option OId
deriving DecidableEq, Repr

/-- Model `CategoryEmbedded` (models.py lines 88-96): the category snapshot
embedded in a transaction at write time. -/
structure CategoryEmbedded where
  id : OId
  name : String
  icon : Option String := none
deriving DecidableEq, Repr

/-- A `transactions` collection document. -/
structure Txn where
  id : OId
  type : String
  amount : Int
  account_id : Option OId
  transaction_date : Date
  description : Option String := none
  currency : String := "TWD"
  payer_id : OId
  user_id : OId
  group_id : Option OId
  category : CategoryEmbedded
  created_at : Date
  updated_at : Date
deriving DecidableEq, Repr

/-- A `groups` collection document (created by `create_group`,
auth_logic.py lines 138-165). -/
structure Group where
  id : OId
  name : String
  owner_id : OId
  members : List OId
  created_at : Time
deriving DecidableEq, Repr

/-- An opaque raw refresh token (`secrets.token_hex(32)` output). -/
abbrev Token := Nat

/-- An opaque digest. `sha256` is modelled as an injective function into
this type; hash collisions are out of scope. -/
structure Hash where
  digest : Token
deriving DecidableEq, Repr

/-- Embeds `hashlib.sha256(token).hexdigest()`, as an injective digest. -/
def sha256 (t : Token) : Hash := ⟨t⟩

/-- A `sessions` collection document (auth_logic.py lines 58-65). -/
structure Session where
  user_id : OId
  refresh_token_hash : Hash
  expires_at : Time
  created_at : Time
  user_agent : Option String := none
  ip_address : Option String := none
deriving DecidableEq, Repr

/-- The whole document database: one field per collection the embedded
logic touches. -/
structure DB where
  users : List UserInDB := []
  sessions : List Session := []
  groups : List Group := []
  accounts : List Account := []
  categories : List CategoryDoc := []
  transactions : List Txn := []
deriving DecidableEq, Repr

/-! ## Account logic (logic.py) -/

/-- Embeds `update_balance` (logic.py lines 114-122): atomically increment the
account's balance.  The source annotates `operation` as
`Literal["add", "subtract"]`, but Python does not enforce `Literal` at
runtime and one caller passes a different string, so the parameter is a
plain `String` here; any string other than `"add"` selects `-amount`. -/
def update_balance (db : DB) (account_id : OId) (amount : Int)
    (operation : String) : DB :=
  let modifier := if operation = "add" then amount else -amount
  { db with
    accounts := update_first db.accounts (fun a => a.id == account_id)
      (fun a => { a with balance := a.balance + modifier }) }

/-- Embeds `archive_account` (logic.py lines 95-111). -/
def archive_account (db : DB) (account_id : OId) (current_user : UserInDB) :
    Except PyErr Unit × DB :=
  match find_one db.accounts
      (fun a => a.id == account_id && a.user_id == some current_user.id) with
  | none =>
      (.error (.http ⟨404, "Account not found or permission denied."⟩), db)
  | some account_to_archive =>
      if account_to_archive.balance ≠ 0 then
        (.error (.http ⟨400,
          "Cannot archive an account with a non-zero balance. Please transfer the remaining balance first."⟩),
         db)
      else
        (.ok (),
         { db with
           accounts := update_first db.accounts (fun a => a.id == account_id)
             (fun a => { a with is_archived := true }) })

/-- Balance of the account with the given id, if present. -/
def account_balance (db : DB) (account_id : OId) : Option Int :=
  (db.accounts.find? (fun a => a.id == account_id)).map (·.balance)

/-- Archived flag of the account with the given id, if present. -/
def account_archived (db : DB) (account_id : OId) : Option Bool :=
  (db.accounts.find? (fun a => a.id == account_id)).map (·.is_archived)

/-! ## Transaction logic (logic.py) -/

/-- Model `CreateTransactionRequest` (models.py lines 99-121). -/
structure CreateTransactionRequest where
  type : String
  amount : Int
  account_id : Option OId
  transaction_date : Date
  description : Option String := none
  currency : String := "TWD"
  payer_id : Option OId := none
  category_id : OId
  group_id : Option OId := none
deriving DecidableEq, Repr

/-- The `operation` string computed by `create_transaction` before calling
`update_balance` (logic.py line 200):
`operation = "income" if transaction_data.type == "income" else "subtract"`.
Note that the income branch yields the string `"income"`, not `"add"`. -/
def create_balance_operation (tx_type : String) : String :=
  if tx_type = "income" then "income" else "subtract"

/-- Embeds `create_transaction` (logic.py lines 128-209).  `now` is the sampled
`datetime.now(timezone.utc)` and `new_id` the ObjectId Mongo assigns to the
inserted document.  The very first statement (lines 132-139) builds the
category filter containing `ObjectId(current_user._id)`; `UserInDB` has no
`_id` attribute (see `UserInDB.id_attr`), so Python evaluates that argument
and raises `AttributeError` before the category query is issued.  The rest
of the body is embedded faithfully below the attribute lookup.
`ObjectId(transaction_data.account_id)` with `account_id=None` mints a
fresh ObjectId matching no stored account, so the `None` case lands in the
same 404 branch as a missing account.  The returned `TransactionPublic`
drops the `account_id` field (line 207). -/
def create_transaction (db : DB) (transaction_data : CreateTransactionRequest)
    (current_user : UserInDB) (now : Date) (new_id : OId) :
    Except PyErr Txn × DB :=
  match current_user.id_attr "_id" with
  | none => (.error (.attributeError "_id"), db)
  | some uid =>
    match find_one db.categories (fun c =>
        c.id == transaction_data.category_id &&
        (c.user_id == some uid || c.user_id == none)) with
    | none =>
        (.error (.http ⟨404, "Category not found or not accessible."⟩), db)
    | some category =>
      match transaction_data.account_id with
      | none =>
          (.error (.http ⟨404, "Account not found or has been archived."⟩), db)
      | some account_id_obj =>
        match find_one db.accounts (fun a =>
            a.id == account_id_obj && a.is_archived == false) with
        | none =>
            (.error (.http ⟨404, "Account not found or has been archived."⟩),
             db)
        | some _account =>
          let embedded_category : CategoryEmbedded :=
            ⟨category.id, category.name, category.icon⟩
          let payer_id := transaction_data.payer_id.getD uid
          let group_check : Except PyErr Unit :=
            match transaction_data.group_id with
            | some gid =>
                match find_one db.groups (fun g =>
                    g.id == gid && g.members.contains payer_id) with
                | none =>
                    .error (.http ⟨403, "Payer is not a member of this group."⟩)
                | some _ => .ok ()
            | none =>
                if payer_id ≠ uid then
                  .error (.http ⟨403,
                    "Payer must be the current user for personal transactions."⟩)
                else .ok ()
          match group_check with
          | .error e => (.error e, db)
          | .ok _ =>
            let transaction_doc : Txn :=
              { id := new_id
                type := transaction_data.type
                amount := transaction_data.amount
                account_id := some account_id_obj
                transaction_date := transaction_data.transaction_date
                description := transaction_data.description
                currency := transaction_data.currency
                payer_id := payer_id
                user_id := uid
                group_id := transaction_data.group_id
                category := embedded_category
                created_at := now
                updated_at := now }
            let db1 := { db with transactions := db.transactions ++ [transaction_doc] }
            let operation := create_balance_operation transaction_data.type
            let db2 := update_balance db1 account_id_obj transaction_data.amount operation
            (.ok { transaction_doc with account_id := none }, db2)

/-- Is a transaction's date inside `[s, e)`? (the `$gte`/`$lt` pair on
`transaction_date`). -/
def in_window (s e : Date) (t : Txn) : Bool :=
  Date.leb s t.transaction_date && Date.ltb t.transaction_date e

/-- Insert a transaction into a list sorted by `transaction_date`
descending (the `$sort: {transaction_date: -1}` stage). -/
def insert_desc (t : Txn) : List Txn → List Txn
  | [] => [t]
  | x :: xs =>
      if Date.leb x.transaction_date t.transaction_date then t :: x :: xs
      else x :: insert_desc t xs

/-- Sort transactions by date, newest first. -/
def sort_desc (l : List Txn) : List Txn := l.foldr insert_desc []

/-- Embeds `list_transactions` (logic.py lines 212-245).  Line 218-221 builds
`match_criteria` containing `ObjectId(current_user._id)` before the group
membership check, so the attribute lookup happens first; note also that
when `group_id` is given the criteria *retain* the `user_id` filter (the
initial dict is only extended, never trimmed).  The `$lookup` of embedded
account display info decorates each returned document without changing
which documents are returned and is omitted. -/
def list_transactions (db : DB) (current_user : UserInDB) (year month : Int)
    (group_id : Option OId) : Except PyErr (List Txn) :=
  let start_of_month := month_start year month
  let start_of_next_month := start_of_month.add_months 1
  match current_user.id_attr "_id" with
  | none => .error (.attributeError "_id")
  | some uid =>
    match group_id with
    | some gid =>
        match find_one db.groups (fun g =>
            g.id == gid && g.members.contains uid) with
        | none => .error (.http ⟨403, "User not in this group."⟩)
        | some _ =>
            .ok (sort_desc (db.transactions.filter (fun t =>
              t.user_id == uid &&
              in_window start_of_month start_of_next_month t &&
              t.group_id == some gid)))
    | none =>
        .ok (sort_desc (db.transactions.filter (fun t =>
          t.user_id == uid &&
          in_window start_of_month start_of_next_month t &&
          t.group_id == none)))

/-- Model `UpdateTransactionRequest` (models.py lines 174-188).  A `none` field is
an unset field (`model_dump(exclude_unset=True)` omits it). -/
structure UpdateTransactionRequest where
  type : Option String := none
  amount : Option Int := none
  transaction_date : Option Date := none
  description : Option String := none
  category_id : Option OId := none
  group_id : Option OId := none
  account_id : Option OId := none
deriving DecidableEq, Repr

/-- Is the patch's `update_doc` empty (every field unset)? -/
def UpdateTransactionRequest.is_empty (p : UpdateTransactionRequest) : Bool :=
  p.type == none && p.amount == none && p.transaction_date == none &&
  p.description == none && p.category_id == none && p.group_id == none &&
  p.account_id == none

/-- The `$set` of `update_doc` applied to a transaction document (the
`find_one_and_update` of logic.py lines 293-295), with `resolved_category`
the re-resolved embedded snapshot when the patch carried a `category_id`. -/
def apply_update (t : Txn) (p : UpdateTransactionRequest)
    (resolved_category : Option CategoryEmbedded) (now : Date) : Txn :=
  { t with
    type := p.type.getD t.type
    amount := p.amount.getD t.amount
    transaction_date := p.transaction_date.getD t.transaction_date
    description := match p.description with
      | some d => some d
      | none => t.description
    category := resolved_category.getD t.category
    group_id := match p.group_id with
      | some g => some g
      | none => t.group_id
    account_id := match p.account_id with
      | some a => some a
      | none => t.account_id
    updated_at := now }

/-- Embeds `update_transaction` (logic.py lines 248-318).  This function reads
`current_user.id` (the declared field), so no `AttributeError` arises.
After the document update it reconciles balances: the *original*
transaction's effect is reversed on the *original* account
(`"subtract"` if it was income, `"add"` if expense), then the *updated*
transaction's effect is applied on the *updated* account (`"add"` if now
income, `"subtract"` if expense); either step is skipped when the
respective `account_id` is absent.  The returned `TransactionPublic`
drops `account_id` (line 316). -/
def update_transaction (db : DB) (transaction_id : OId)
    (update_data : UpdateTransactionRequest) (current_user : UserInDB)
    (now : Date) : Except PyErr Txn × DB :=
  match find_one db.transactions (fun t =>
      t.id == transaction_id && t.user_id == current_user.id) with
  | none => (.error (.http ⟨404, "Transaction not found."⟩), db)
  | some original_transaction =>
    let category_resolution : Except PyErr (Option CategoryEmbedded) :=
      match update_data.category_id with
      | none => .ok none
      | some new_category_id =>
          match find_one db.categories (fun c =>
              c.id == new_category_id &&
              (c.user_id == some current_user.id || c.user_id == none)) with
          | none => .error (.http ⟨404, "Category not accessible."⟩)
          | some c => .ok (some ⟨c.id, c.name, c.icon⟩)
    match category_resolution with
    | .error e => (.error e, db)
    | .ok resolved_category =>
      if update_data.is_empty then (.ok original_transaction, db)
      else
        match find_one_and_update db.transactions
            (fun t => t.id == transaction_id)
            (fun t => apply_update t update_data resolved_category now) with
        | (none, transactions') =>
            (.error (.http ⟨404, "Transaction not found after update."⟩),
             { db with transactions := transactions' })
        | (some updated_transaction, transactions') =>
          let db1 := { db with transactions := transactions' }
          let db2 :=
            match original_transaction.account_id with
            | none => db1
            | some original_account_id =>
                let reverse_op :=
                  if original_transaction.type = "income" then "subtract"
                  else "add"
                update_balance db1 original_account_id
                  original_transaction.amount reverse_op
          let db3 :=
            match updated_transaction.account_id with
            | none => db2
            | some new_account_id =>
                let apply_op :=
                  if updated_transaction.type = "income" then "add"
                  else "subtract"
                update_balance db2 new_account_id
                  updated_transaction.amount apply_op
          (.ok { updated_transaction with account_id := none }, db3)

/-- Embeds `delete_transaction` (logic.py lines 376-404): reverse the
transaction's balance effect (`"subtract"` if income, `"add"` if expense)
when it references an account, then delete the document. -/
def delete_transaction (db : DB) (transaction_id : OId)
    (current_user : UserInDB) : Except PyErr Unit × DB :=
  match find_one db.transactions (fun t =>
      t.id == transaction_id && t.user_id == current_user.id) with
  | none =>
      (.error (.http ⟨404,
        "Transaction not found or you do not have permission to delete it."⟩),
       db)
  | some transaction_to_delete =>
    let db1 :=
      match transaction_to_delete.account_id with
      | none => db
      | some account_id =>
          let reverse_op :=
            if transaction_to_delete.type = "income" then "subtract" else "add"
          update_balance db account_id transaction_to_delete.amount reverse_op
    (.ok (),
     { db1 with
       transactions := delete_first db1.transactions
         (fun t => t.id == transaction_id) })

/-- Model `TransactionSummaryData` (models.py lines 145-149). -/
structure TransactionSummaryData where
  income : Int
  expense : Int
deriving DecidableEq, Repr

/-- Model `TransactionSummaryResponse` (models.py lines 152-156). -/
structure TransactionSummaryResponse where
  current_month : TransactionSummaryData
  previous_month : TransactionSummaryData
deriving DecidableEq, Repr

/-- Total amount of the transactions of the given type (the
`$group: {_id: "$type", total_amount: {$sum: "$amount"}}` stage). -/
def sum_amounts (ts : List Txn) (ty : String) : Int :=
  (ts.filter (fun t => t.type == ty)).foldl (fun acc t => acc + t.amount) 0

/-- The inner `_calculate_summary` of `get_transaction_summary`
(logic.py lines 338-365): when `group_id` is given the match criteria are
the date window plus `group_id` only — no `user_id` constraint and no
group membership check; only the personal branch (else, line 343) touches
`ObjectId(current_user._id)`, which raises `AttributeError`. -/
def calculate_summary (db : DB) (current_user : UserInDB)
    (group_id : Option OId) (start_date end_date : Date) :
    Except PyErr TransactionSummaryData :=
  match group_id with
  | some gid =>
      let matched := db.transactions.filter (fun t =>
        in_window start_date end_date t && t.group_id == some gid)
      .ok ⟨sum_amounts matched "income", sum_amounts matched "expense"⟩
  | none =>
      match current_user.id_attr "_id" with
      | none => .error (.attributeError "_id")
      | some uid =>
          let matched := db.transactions.filter (fun t =>
            in_window start_date end_date t && t.user_id == uid &&
            t.group_id == none)
          .ok ⟨sum_amounts matched "income", sum_amounts matched "expense"⟩

/-- Embeds `get_transaction_summary` (logic.py lines 321-373): summaries for the
current month window and the immediately preceding one. -/
def get_transaction_summary (db : DB) (current_user : UserInDB)
    (year month : Int) (group_id : Option OId) :
    Except PyErr TransactionSummaryResponse :=
  let current_month_start := month_start year month
  let previous_month_start := current_month_start.add_months (-1)
  let next_month_start := current_month_start.add_months 1
  match calculate_summary db current_user group_id current_month_start
          next_month_start,
        calculate_summary db current_user group_id previous_month_start
          current_month_start with
  | .ok c, .ok p => .ok ⟨c, p⟩
  | .error e, _ => .error e
  | .ok _, .error e => .error e

/-! ## Category logic (logic.py lines 410-489).  Every one of these four
operations embeds `ObjectId(current_user._id)` in its first query, so each
raises `AttributeError` while building that query, before touching the
database; the remaining logic is embedded below the attribute lookup. -/

/-- Model `CategoryCreate` (models.py lines 50-62). -/
structure CategoryCreate where
  name : String
  type : String
  icon : Option String := none
  color : Option String := none
deriving DecidableEq, Repr

/-- Embeds `create_category` (logic.py lines 410-430). -/
def create_category (db : DB) (category_data : CategoryCreate)
    (current_user : UserInDB) (new_id : OId) : Except PyErr CategoryDoc × DB :=
  match current_user.id_attr "_id" with
  | none => (.error (.attributeError "_id"), db)
  | some uid =>
    match find_one db.categories (fun c =>
        c.name == category_data.name && c.type == category_data.type &&
        c.user_id == some uid) with
    | some _ =>
        (.error (.http ⟨409, "Category already exists."⟩), db)
    | none =>
        let category_doc : CategoryDoc :=
          { id := new_id, name := category_data.name,
            type := category_data.type, icon := category_data.icon,
            color := category_data.color, user_id := some uid }
        (.ok category_doc,
         { db with categories := db.categories ++ [category_doc] })

/-- Embeds `list_categories` (logic.py lines 433-443). -/
def list_categories (db : DB) (current_user : UserInDB)
    (category_type : Option String) : Except PyErr (List CategoryDoc) :=
  match current_user.id_attr "_id" with
  | none => .error (.attributeError "_id")
  | some uid =>
      .ok (db.categories.filter (fun c =>
        (c.user_id == some uid || c.user_id == none) &&
        (match category_type with
         | some ty => c.type == ty
         | none => true)))

/-- Model `UpdateCategoryRequest` (models.py lines 77-82). -/
structure UpdateCategoryRequest where
  name : Option String := none
  icon : Option String := none
  color : Option String := none
deriving DecidableEq, Repr

/-- Embeds `update_category` (logic.py lines 446-468). -/
def update_category (db : DB) (category_id : OId)
    (update_data : UpdateCategoryRequest) (current_user : UserInDB) :
    Except PyErr CategoryDoc × DB :=
  match current_user.id_attr "_id" with
  | none => (.error (.attributeError "_id"), db)
  | some uid =>
    match find_one db.categories (fun c =>
        c.id == category_id && c.user_id == some uid) with
    | none =>
        (.error (.http ⟨404, "Category not found or permission denied."⟩), db)
    | some _ =>
      if update_data.name == none && update_data.icon == none &&
          update_data.color == none then
        (.error (.http ⟨400, "No fields to update."⟩), db)
      else
        match find_one_and_update db.categories
            (fun c => c.id == category_id)
            (fun c =>
              { c with
                name := update_data.name.getD c.name
                icon := match update_data.icon with
                  | some i => some i
                  | none => c.icon
                color := match update_data.color with
                  | some col => some col
                  | none => c.color }) with
        | (updated?, categories') =>
            match updated? with
            | none =>
                (.error (.http ⟨500, "Failed to update category."⟩),
                 { db with categories := categories' })
            | some updated =>
                (.ok updated, { db with categories := categories' })

/-- Embeds `delete_category` (logic.py lines 471-489). -/
def delete_category (db : DB) (category_id : OId) (current_user : UserInDB) :
    Except PyErr Unit × DB :=
  match current_user.id_attr "_id" with
  | none => (.error (.attributeError "_id"), db)
  | some uid =>
    match find_one db.categories (fun c =>
        c.id == category_id && c.user_id == some uid) with
    | none => (.error (.http ⟨404, "Category not found."⟩), db)
    | some _ =>
      match find_one db.transactions (fun t =>
          t.category.id == category_id && t.user_id == uid) with
      | some _ =>
          (.error (.http ⟨400,
            "Cannot delete category as it is currently in use by one or more transactions."⟩),
           db)
      | none =>
          (.ok (),
           { db with
             categories := delete_first db.categories
               (fun c => c.id == category_id) })

/-! ## Token issuance and refresh rotation (auth_logic.py) -/

/-- The payload of a minted access token (`create_access_token`,
auth_logic.py lines 43-47); the JWT signing itself is opaque plumbing. -/
structure AccessTok where
  sub : OId
  email : String
  exp : Time
  tok_type : String
deriving DecidableEq, Repr

/-- Embeds `create_access_token` (auth_logic.py lines 43-47): 15-minute expiry. -/
def create_access_token (user : UserInDB) (now : Time) : AccessTok :=
  ⟨user.id, user.email, now + 15 * 60, "access"⟩

/-- Model `TokenResponse` (auth service models.py). -/
structure TokenResponse where
  access_token : AccessTok
  refresh_token : Token
  token_type : String := "bearer"
deriving DecidableEq, Repr

/-- Embeds `create_refresh_token` (auth_logic.py lines 50-67): `fresh` stands for
the freshly drawn `secrets.token_hex(32)` value; only `sha256(fresh)` is
persisted, with a 7-day expiry and the client metadata. -/
def create_refresh_token (user : UserInDB) (db : DB) (now : Time)
    (fresh : Token) (user_agent ip_address : Option String) : Token × DB :=
  let session_doc : Session :=
    { user_id := user.id
      refresh_token_hash := sha256 fresh
      expires_at := now + 7 * 86400
      created_at := now
      user_agent := user_agent
      ip_address := ip_address }
  (fresh, { db with sessions := db.sessions ++ [session_doc] })

/-- Embeds `refresh_access_token` (auth_logic.py lines 110-128): hash the
presented raw token, atomically find-and-delete the matching session (the
deletion happens whether or not the later checks pass), then fail 401 if
no session was found or the found one is expired, fail 401 if the owning
user is gone, and otherwise mint a new access token and a new refresh
session. -/
def refresh_access_token (db : DB) (refresh_token : Token) (now : Time)
    (fresh : Token) (user_agent ip_address : Option String) :
    Except PyErr TokenResponse × DB :=
  let hashed_token := sha256 refresh_token
  match find_one_and_delete db.sessions
      (fun s => s.refresh_token_hash == hashed_token) with
  | (none, sessions') =>
      (.error (.http ⟨401, "Invalid or expired refresh token"⟩),
       { db with sessions := sessions' })
  | (some old_session, sessions') =>
    let db1 := { db with sessions := sessions' }
    if old_session.expires_at < now then
      (.error (.http ⟨401, "Invalid or expired refresh token"⟩), db1)
    else
      match find_one db1.users (fun u => u.id == old_session.user_id) with
      | none => (.error (.http ⟨401, "User not found"⟩), db1)
      | some user =>
          let new_access_token := create_access_token user now
          let (new_refresh_token, db2) :=
            create_refresh_token user db1 now fresh user_agent ip_address
          (.ok ⟨new_access_token, new_refresh_token, "bearer"⟩, db2)

/-- Embeds `logout_user` (auth_logic.py lines 131-135): delete the matching
session; a no-op when none matches. -/
def logout_user (db : DB) (refresh_token : Token) : DB :=
  { db with
    sessions := delete_first db.sessions
      (fun s => s.refresh_token_hash == sha256 refresh_token) }

/-- Does some stored session carry the hash of this raw token? -/
def session_for (db : DB) (t : Token) : Bool :=
  db.sessions.any (fun s => s.refresh_token_hash == sha256 t)

/-- A session-store-affecting auth operation, for stating lifecycle
properties over operation sequences.  `issue` is the session-inserting
effect of a successful `login` (which calls `create_refresh_token`);
`rotate` and `logout` carry the raw token they present, and `rotate` and
`issue` carry the fresh raw token drawn for the new session. -/
inductive AuthOp where
  | rotate (raw : Token) (now : Time) (fresh : Token)
  | logout (raw : Token)
  | issue (user : UserInDB) (now : Time) (fresh : Token)
deriving DecidableEq, Repr

/-- The fresh raw token an operation mints, if any. -/
def AuthOp.minted : AuthOp → Option Token
  | .rotate _ _ fresh => some fresh
  | .logout _ => none
  | .issue _ _ fresh => some fresh

/-- Session-store effect of one auth operation. -/
def apply_auth_op (db : DB) : AuthOp → DB
  | .rotate raw now fresh => (refresh_access_token db raw now fresh none none).2
  | .logout raw => logout_user db raw
  | .issue user now fresh => (create_refresh_token user db now fresh none none).2

/-- Session-store effect of a sequence of auth operations. -/
def apply_auth_ops (db : DB) (ops : List AuthOp) : DB :=
  ops.foldl apply_auth_op db

/-! ## Group logic (auth_logic.py) -/

/-- Embeds `get_group_details` (auth_logic.py lines 223-241): load the group,
check the caller is a member, and return it (the population of member
user documents decorates the response without affecting state or which
group is returned, and is omitted). -/
def get_group_details (db : DB) (group_id : OId) (current_user : UserInDB) :
    Except PyErr Group :=
  match find_one db.groups (fun g => g.id == group_id) with
  | none => .error (.http ⟨404, "Group not found."⟩)
  | some group =>
      if group.members.contains current_user.id = false then
        .error (.http ⟨403, "Not a member of this group."⟩)
      else .ok group

/-- Embeds `create_group` (auth_logic.py lines 138-165): insert a group whose
`owner_id` is the caller and whose `members` array initially contains
exactly the caller; `new_id` is the ObjectId Mongo assigns.  (The
member-document population of the response is display plumbing and the
returned value is the stored group document.) -/
def create_group (db : DB) (name : String) (current_user : UserInDB)
    (now : Time) (new_id : OId) : Except PyErr Group × DB :=
  let new_group_doc : Group :=
    { id := new_id
      name := name
      owner_id := current_user.id
      members := [current_user.id]
      created_at := now }
  (.ok new_group_doc, { db with groups := db.groups ++ [new_group_doc] })

/-- Embeds `add_member_to_group` (auth_logic.py lines 244-271): owner-only; looks
the new member up by email; 409 when already present; `$addToSet` appends
the member id when absent. -/
def add_member_to_group (db : DB) (group_id : OId) (email : String)
    (current_user : UserInDB) : Except PyErr Group × DB :=
  match find_one db.groups (fun g => g.id == group_id) with
  | none => (.error (.http ⟨404, "Group not found."⟩), db)
  | some group =>
    if group.owner_id ≠ current_user.id then
      (.error (.http ⟨403, "Only the group owner can add members."⟩), db)
    else
      match find_one db.users (fun u => u.email == email) with
      | none => (.error (.http ⟨404, "User not found."⟩), db)
      | some user_to_add =>
        if group.members.contains user_to_add.id then
          (.error (.http ⟨409, "User is already a member of this group."⟩), db)
        else
          let db1 :=
            { db with
              groups := update_first db.groups (fun g => g.id == group_id)
                (fun g =>
                  if g.members.contains user_to_add.id then g
                  else { g with members := g.members ++ [user_to_add.id] }) }
          match get_group_details db1 group_id current_user with
          | .error e => (.error e, db1)
          | .ok g => (.ok g, db1)

/-- Embeds `remove_member_from_group` (auth_logic.py lines 274-296): 404 when the
group is missing, 403 when the caller is not the owner, 400 when the
member to remove *is* the owner, and otherwise `$pull` the member id out
of the members array. -/
def remove_member_from_group (db : DB) (group_id : OId) (member_id : OId)
    (current_user : UserInDB) : Except PyErr Group × DB :=
  match find_one db.groups (fun g => g.id == group_id) with
  | none => (.error (.http ⟨404, "Group not found."⟩), db)
  | some group =>
    if group.owner_id ≠ current_user.id then
      (.error (.http ⟨403, "Only the group owner can remove members."⟩), db)
    else if member_id = group.owner_id then
      (.error (.http ⟨400, "Owner cannot be removed from the group."⟩), db)
    else
      let db1 :=
        { db with
          groups := update_first db.groups (fun g => g.id == group_id)
            (fun g =>
              { g with members := g.members.filter (fun m => !(m == member_id)) }) }
      match get_group_details db1 group_id current_user with
      | .error e => (.error e, db1)
      | .ok g => (.ok g, db1)

/-- A group-management operation, for stating the owner-membership
invariant over operation sequences. -/
inductive GroupOp where
  | create (name : String) (u : UserInDB) (now : Time) (nid : OId)
  | add (gid : OId) (email : String) (u : UserInDB)
  | remove (gid : OId) (mid : OId) (u : UserInDB)
deriving DecidableEq, Repr

/-- State effect of one group operation. -/
def apply_group_op (db : DB) : GroupOp → DB
  | .create name u now nid => (create_group db name u now nid).2
  | .add gid email u => (add_member_to_group db gid email u).2
  | .remove gid mid u => (remove_member_from_group db gid mid u).2

/-- State effect of a sequence of group operations. -/
def apply_group_ops (db : DB) (ops : List GroupOp) : DB :=
  ops.foldl apply_group_op db

/-- Every stored group's owner is listed among its members. -/
def groups_ok (db : DB) : Bool :=
  db.groups.all (fun g => g.members.contains g.owner_id)

/-- The HTTP status of an error outcome, if it is one. -/
def err_status : Except PyErr α → Option Nat
  | .error (.http e) => some e.status
  | _ => none

/-! ## Concrete fixtures used by the counterexample / failing-input
theorems and the witnesses -/

/-- A verified user with id 7. -/
def user7 : UserInDB :=
  { id := 7, email := "u@x.com", verified := true, hashed_password := "h" }

/-- A verified user with id 9 (not a member of `grp20`). -/
def user9 : UserInDB :=
  { id := 9, email := "v@x.com", verified := true, hashed_password := "h" }

/-- A bank account of user 7 with initial balance 100 and balance 100. -/
def acct1 : Account :=
  { id := 1, name := "checking", type := "bank", initial_balance := 100,
    user_id := some 7, group_id := none, balance := 100, is_archived := false }

/-- A second account of user 7, balance 50. -/
def acct2 : Account :=
  { id := 2, name := "wallet", type := "cash", initial_balance := 50,
    user_id := some 7, group_id := none, balance := 50, is_archived := false }

/-- An income category owned by user 7. -/
def cat3 : CategoryDoc :=
  { id := 3, name := "salary", type := "income", user_id := some 7 }

/-- An expense category owned by user 7. -/
def cat4 : CategoryDoc :=
  { id := 4, name := "food", type := "expense", user_id := some 7 }

/-- Database holding `acct1` and the income category. -/
def db_income : DB := { accounts := [acct1], categories := [cat3] }

/-- Database holding `acct1` (balance 100) and the expense category: the
starting point of the spec's ledger round-trip scenario. -/
def db_scenario : DB := { accounts := [acct1], categories := [cat4] }

/-- A valid income-transaction request: amount 10 into account 1. -/
def income_req : CreateTransactionRequest :=
  { type := "income", amount := 10, account_id := some 1,
    transaction_date := ⟨0, 0⟩, category_id := 3 }

/-- The scenario's expense-transaction request: amount 30 from account 1. -/
def expense_req30 : CreateTransactionRequest :=
  { type := "expense", amount := 30, account_id := some 1,
    transaction_date := ⟨0, 0⟩, category_id := 4 }

/-- A group with id 20 owned by user 8, whose members are users 7 and 8. -/
def grp20 : Group :=
  { id := 20, name := "flat", owner_id := 8, members := [7, 8], created_at := 0 }

/-- A group transaction of group 20 created by user 8 (not by user 7),
dated inside January 2025. -/
def tx_grp : Txn :=
  { id := 6, type := "expense", amount := 30, account_id := some 1
    transaction_date := ⟨12 * 2025 + 1, 3⟩, payer_id := 8, user_id := 8
    group_id := some 20, category := ⟨4, "food", none⟩
    created_at := ⟨12 * 2025 + 1, 3⟩, updated_at := ⟨12 * 2025 + 1, 3⟩ }

/-- Database for the group-listing claim: group 20 and its transaction. -/
def db_group : DB := { groups := [grp20], transactions := [tx_grp] }

/-- An unexpired session for user 7 whose stored hash is `sha256 5`. -/
def sess5 : Session :=
  { user_id := 7, refresh_token_hash := sha256 5, expires_at := 100,
    created_at := 0 }

/-- Auth database: user 7 plus the single session for raw token 5. -/
def db_auth : DB := { users := [user7], sessions := [sess5] }

/-- The token response minted by rotating token 5 at time 50 with fresh
token 6 against `db_auth`. -/
def resp_rot : TokenResponse :=
  { access_token := ⟨7, "u@x.com", 950, "access"⟩, refresh_token := 6 }

/-- Group-management fixtures: a group with id 1 owned by user 10. -/
def grp1 : Group :=
  { id := 1, name := "g", owner_id := 10, members := [10, 11], created_at := 0 }

/-- Owner of `grp1`. -/
def user10 : UserInDB :=
  { id := 10, email := "a@x.com", verified := true, hashed_password := "h" }

/-- A non-owner member of `grp1`. -/
def user11 : UserInDB :=
  { id := 11, email := "b@x.com", verified := true, hashed_password := "h" }

/-- Group database for the owner-removal claim. -/
def db_grp : DB := { users := [user10, user11], groups := [grp1] }

/-- An expense transaction of 30 by user 7 funded from account 1. -/
def tx5 : Txn :=
  { id := 5, type := "expense", amount := 30, account_id := some 1
    transaction_date := ⟨0, 0⟩, payer_id := 7, user_id := 7, group_id := none
    category := ⟨4, "food", none⟩, created_at := ⟨0, 0⟩, updated_at := ⟨0, 0⟩ }

/-- Database for the account-move claim: account 1 already carries the
30-expense (balance 70), account 2 is untouched (balance 50). -/
def db_move : DB :=
  { accounts := [{ acct1 with balance := 70 }, acct2], transactions := [tx5] }

/-- The patch that reassigns transaction 5 to account 2. -/
def patch_move : UpdateTransactionRequest := { account_id := some 2 }

/-- An account of user 7 whose balance is exactly 0. -/
def acct_zero : Account :=
  { id := 1, name := "empty", type := "cash", initial_balance := 0,
    user_id := some 7, group_id := none, balance := 0, is_archived := false }

/-- Database holding only the zero-balance account. -/
def db_zero : DB := { accounts := [acct_zero] }

/-! ## Theorems -/

/-- If the first `p`-match also satisfies `q`, then it is also the first
match of the conjunction. -/
theorem find?_and_of_find? {α : Type} {l : List α} {p q : α → Bool} {x : α}
    (h : l.find? p = some x) (hq : q x = true) :
    l.find? (fun y => p y && q y) = some x := by
  induction l with
  | nil => simp at h
  | cons a as ih =>
    cases hpa : p a with
    | true =>
      rw [List.find?_cons, hpa] at h
      injection h with h
      subst h
      simp [List.find?_cons, hpa, hq]
    | false =>
      rw [List.find?_cons, hpa] at h
      simp only [List.find?_cons, hpa, Bool.false_and]
      exact ih h

/-- Rewriting the first `p`-match with an update that preserves `p`
commutes with `find?`. -/
theorem find?_update_first {α : Type} {l : List α} {p : α → Bool} {f : α → α}
    (hf : ∀ x, p x = true → p (f x) = true) :
    (update_first l p f).find? p = (l.find? p).map f := by
  induction l with
  | nil => rfl
  | cons a as ih =>
    cases hpa : p a with
    | true => simp [update_first, List.find?_cons, hpa, hf a hpa]
    | false => simp [update_first, List.find?_cons, hpa, ih]

/-- Updating the first `p`-match does not disturb `find?` for a query `q`
that is false both on anything satisfying `p` and on its update. -/
theorem find?_update_first_other {α : Type} {l : List α} {p q : α → Bool}
    {f : α → α} (h : ∀ x, p x = true → q (f x) = false ∧ q x = false) :
    (update_first l p f).find? q = l.find? q := by
  induction l with
  | nil => rfl
  | cons a as ih =>
    cases hpa : p a with
    | true =>
      simp [update_first, List.find?_cons, hpa, (h a hpa).1, (h a hpa).2]
    | false =>
      cases hqa : q a with
      | true => simp [update_first, List.find?_cons, hpa, hqa]
      | false => simp [update_first, List.find?_cons, hpa, hqa, ih]

/-- Deleting the first match of a predicate that holds nowhere is a no-op. -/
theorem delete_first_of_all_not {α : Type} {l : List α} {p : α → Bool}
    (h : ∀ x ∈ l, p x = false) : delete_first l p = l := by
  induction l with
  | nil => rfl
  | cons a as ih =>
    have ha := h a (List.mem_cons_self a as)
    simp only [delete_first, ha, Bool.false_eq_true, if_false, List.cons.injEq,
      true_and]
    exact ih (fun x hx => h x (List.mem_cons_of_mem a hx))

/-- Membership survives `delete_first` backwards. -/
theorem mem_delete_first {α : Type} {l : List α} {p : α → Bool} {x : α}
    (h : x ∈ delete_first l p) : x ∈ l := by
  induction l with
  | nil => simp [delete_first] at h
  | cons a as ih =>
    by_cases hpa : p a = true
    · simp only [delete_first, hpa, if_true] at h
      exact List.mem_cons_of_mem a h
    · simp only [delete_first, hpa, if_false] at h
      rcases List.mem_cons.mp h with h | h
      · exact h ▸ List.mem_cons_self a as
      · exact List.mem_cons_of_mem a (ih h)

/-- When at most one element matches, nothing matching survives
`delete_first`. -/
theorem not_mem_after_delete_first {α : Type} {l : List α} {p : α → Bool}
    (h : l.countP p ≤ 1) : ∀ x ∈ delete_first l p, p x = false := by
  induction l with
  | nil => intro x hx; simp [delete_first] at hx
  | cons a as ih =>
    intro x hx
    by_cases hpa : p a = true
    · simp only [delete_first, hpa, if_true] at hx
      rw [List.countP_cons_of_pos _ _ hpa] at h
      have hz : as.countP p = 0 := Nat.le_zero.mp (Nat.le_of_succ_le_succ h)
      have := (List.countP_eq_zero).mp hz x hx
      exact Bool.eq_false_iff.mpr this
    · simp only [delete_first, hpa, if_false] at hx
      rw [List.countP_cons_of_neg _ _ (by simpa using hpa)] at h
      rcases List.mem_cons.mp hx with h' | h'
      · subst h'; exact Bool.eq_false_iff.mpr hpa
      · exact ih h x h'

/-- Effect of `update_balance` on the balance of the targeted account. -/
theorem account_balance_update_balance (db : DB) (aid : OId) (amt : Int)
    (op : String) :
    account_balance (update_balance db aid amt op) aid
      = (account_balance db aid).map
          (fun b => b + (if op = "add" then amt else -amt)) := by
  unfold account_balance update_balance
  simp only []
  rw [find?_update_first (α := Account) (l := db.accounts)
    (p := fun a => a.id == aid)
    (f := fun a => { a with balance := a.balance + (if op = "add" then amt else -amt) })
    (fun x hx => hx)]
  cases db.accounts.find? (fun a => a.id == aid) with
  | none => rfl
  | some a => rfl

/-- Lemma: `update_balance` leaves every other account document untouched. -/
theorem find?_update_balance_other (db : DB) (aid : OId) (amt : Int)
    (op : String) (bid : OId) (hne : bid ≠ aid) :
    (update_balance db aid amt op).accounts.find? (fun a => a.id == bid)
      = db.accounts.find? (fun a => a.id == bid) := by
  unfold update_balance
  refine find?_update_first_other (fun x hx => ?_)
  have hid : x.id = aid := by simpa using hx
  constructor <;> simp [hid, Ne.symm hne]

/-- Lemma: `update_balance` leaves every other account's balance untouched. -/
theorem account_balance_update_balance_other (db : DB) (aid : OId) (amt : Int)
    (op : String) (bid : OId) (hne : bid ≠ aid) :
    account_balance (update_balance db aid amt op) bid
      = account_balance db bid := by
  unfold account_balance
  rw [find?_update_balance_other db aid amt op bid hne]

/-- Distinct raw tokens have distinct digests (`sha256` is collision-free
in this model). -/
theorem sha256_beq_false {a b : Token} (h : a ≠ b) :
    (sha256 a == sha256 b) = false := by
  simp [sha256, Hash.mk.injEq]
  exact h

/-- Rotating a token for which no session is stored fails 401 and leaves
the state unchanged. -/
theorem rotate_error_of_no_session {db : DB} {t : Token}
    (h : ∀ s ∈ db.sessions, (s.refresh_token_hash == sha256 t) = false)
    (now : Time) (fresh : Token) (ua ip : Option String) :
    refresh_access_token db t now fresh ua ip
      = (.error (.http ⟨401, "Invalid or expired refresh token"⟩), db) := by
  have hf : db.sessions.find? (fun s => s.refresh_token_hash == sha256 t)
      = none :=
    List.find?_eq_none.mpr (fun x hx => by simp [h x hx])
  have hd : delete_first db.sessions
      (fun s => s.refresh_token_hash == sha256 t) = db.sessions :=
    delete_first_of_all_not h
  unfold refresh_access_token find_one_and_delete
  simp only []
  rw [hf, hd]

/-- Normal form of the session store after any rotation attempt: the first
session matching the presented token's hash is deleted, and (only) on the
success path one session hashing the fresh token is appended. -/
theorem rotate_post_sessions (db : DB) (t : Token) (now : Time)
    (fresh : Token) (ua ip : Option String) :
    (refresh_access_token db t now fresh ua ip).2.sessions
      = delete_first db.sessions (fun s => s.refresh_token_hash == sha256 t)
        ++ (match db.sessions.find?
              (fun s => s.refresh_token_hash == sha256 t) with
            | none => []
            | some old =>
              if old.expires_at < now then []
              else
                match db.users.find? (fun u => u.id == old.user_id) with
                | none => []
                | some user =>
                    [{ user_id := user.id
                       refresh_token_hash := sha256 fresh
                       expires_at := now + 7 * 86400
                       created_at := now
                       user_agent := ua
                       ip_address := ip }]) := by
  unfold refresh_access_token find_one_and_delete
  simp only []
  cases hf : db.sessions.find? (fun s => s.refresh_token_hash == sha256 t) with
  | none => simp [hf]
  | some old =>
    by_cases he : old.expires_at < now
    · simp [hf, he]
    · cases hu : db.users.find? (fun u => u.id == old.user_id) with
      | none => simp [hf, he, hu, find_one]
      | some user => simp [hf, he, hu, find_one, create_refresh_token]

/-- After any rotation attempt presenting token `t` whose stored hash was
unique, no stored session hashes `t` any more (provided the fresh token
differs from `t`). -/
theorem no_session_after_rotate {db : DB} {t : Token} {now : Time}
    {fresh : Token} {ua ip : Option String}
    (h_uniq : db.sessions.countP
        (fun s => s.refresh_token_hash == sha256 t) ≤ 1)
    (h_fresh : fresh ≠ t) :
    ∀ s ∈ (refresh_access_token db t now fresh ua ip).2.sessions,
      (s.refresh_token_hash == sha256 t) = false := by
  intro s hs
  rw [rotate_post_sessions] at hs
  rcases List.mem_append.mp hs with h' | h'
  · exact not_mem_after_delete_first h_uniq s h'
  · cases hf : db.sessions.find?
        (fun s => s.refresh_token_hash == sha256 t) with
    | none => rw [hf] at h'; simp at h'
    | some old =>
      rw [hf] at h'
      by_cases he : old.expires_at < now
      · simp [he] at h'
      · cases hu : db.users.find? (fun u => u.id == old.user_id) with
        | none => simp [he, hu] at h'
        | some user =>
          simp [he, hu] at h'
          rw [h']
          exact sha256_beq_false h_fresh

/-- A logout never creates a session: a token with no stored session still
has none afterwards. -/
theorem no_session_after_logout {db : DB} {t raw : Token}
    (h : ∀ s ∈ db.sessions, (s.refresh_token_hash == sha256 t) = false) :
    ∀ s ∈ (logout_user db raw).sessions,
      (s.refresh_token_hash == sha256 t) = false := by
  intro s hs
  exact h s (mem_delete_first hs)

/-- Issuing a fresh refresh token different from `t` cannot recreate a
session for `t`. -/
theorem no_session_after_issue {db : DB} {t : Token} {u : UserInDB}
    {now : Time} {fresh : Token} {ua ip : Option String}
    (h : ∀ s ∈ db.sessions, (s.refresh_token_hash == sha256 t) = false)
    (h_fresh : fresh ≠ t) :
    ∀ s ∈ (create_refresh_token u db now fresh ua ip).2.sessions,
      (s.refresh_token_hash == sha256 t) = false := by
  intro s hs
  unfold create_refresh_token at hs
  rcases List.mem_append.mp hs with h' | h'
  · exact h s h'
  · rw [List.mem_singleton.mp h']
    exact sha256_beq_false h_fresh

/-- Any rotation attempt only ever deletes sessions or appends one hashing
its fresh token, so a token with no stored session and differing from the
fresh token still has none afterwards. -/
theorem no_session_after_rotate_other {db : DB} {t raw : Token} {now : Time}
    {fresh : Token} {ua ip : Option String}
    (h : ∀ s ∈ db.sessions, (s.refresh_token_hash == sha256 t) = false)
    (h_fresh : fresh ≠ t) :
    ∀ s ∈ (refresh_access_token db raw now fresh ua ip).2.sessions,
      (s.refresh_token_hash == sha256 t) = false := by
  intro s hs
  rw [rotate_post_sessions] at hs
  rcases List.mem_append.mp hs with h' | h'
  · exact h s (mem_delete_first h')
  · cases hf : db.sessions.find?
        (fun s => s.refresh_token_hash == sha256 raw) with
    | none => rw [hf] at h'; simp at h'
    | some old =>
      rw [hf] at h'
      by_cases he : old.expires_at < now
      · simp [he] at h'
      · cases hu : db.users.find? (fun u => u.id == old.user_id) with
        | none => simp [he, hu] at h'
        | some user =>
          simp [he, hu] at h'
          rw [h']
          exact sha256_beq_false h_fresh

/-- No auth operation whose minted fresh token differs from `t` can
recreate a session for `t`. -/
theorem no_session_preserved_op {db : DB} {t : Token} {op : AuthOp}
    (h : ∀ s ∈ db.sessions, (s.refresh_token_hash == sha256 t) = false)
    (hm : op.minted ≠ some t) :
    ∀ s ∈ (apply_auth_op db op).sessions,
      (s.refresh_token_hash == sha256 t) = false := by
  cases op with
  | rotate raw now fresh =>
      have h_fresh : fresh ≠ t := by
        intro hx; exact hm (by simp [AuthOp.minted, hx])
      exact no_session_after_rotate_other h h_fresh
  | logout raw => exact no_session_after_logout h
  | issue u now fresh =>
      have h_fresh : fresh ≠ t := by
        intro hx; exact hm (by simp [AuthOp.minted, hx])
      exact no_session_after_issue h h_fresh

/-- No sequence of auth operations minting only tokens other than `t` can
recreate a session for `t`. -/
theorem no_session_preserved_ops {t : Token} (ops : List AuthOp) :
    ∀ db : DB,
      (∀ s ∈ db.sessions, (s.refresh_token_hash == sha256 t) = false) →
      (∀ op ∈ ops, op.minted ≠ some t) →
      ∀ s ∈ (apply_auth_ops db ops).sessions,
        (s.refresh_token_hash == sha256 t) = false := by
  induction ops with
  | nil => intro db h _; exact h
  | cons op rest ih =>
      intro db h hm
      exact ih (apply_auth_op db op)
        (no_session_preserved_op h (hm op (List.mem_cons_self op rest)))
        (fun o ho => hm o (List.mem_cons_of_mem op ho))

/-- A member of a list is a member of any right-extension of it. -/
theorem contains_append_left_oid {l l' : List OId} {a : OId}
    (h : l.contains a = true) : (l ++ l').contains a = true := by
  have ha : a ∈ l := by simpa using h
  simpa using List.mem_append_left l' ha

/-- Pulling a different id out of a list keeps a member in it. -/
theorem contains_filter_ne_oid {l : List OId} {a b : OId}
    (h : l.contains a = true) (hne : a ≠ b) :
    (l.filter (fun m => !(m == b))).contains a = true := by
  have ha : a ∈ l := by simpa using h
  have hm : a ∈ l.filter (fun m => !(m == b)) :=
    List.mem_filter.mpr ⟨ha, by simp [hne]⟩
  simpa using hm

/-- An update of the first `q`-match (which `find?` pins down) preserves
`all p` provided the updated element still satisfies `p`. -/
theorem all_update_first_of_find? {α : Type} {l : List α} {q p : α → Bool}
    {f : α → α} {x : α} (hx : l.find? q = some x) (hall : l.all p = true)
    (hfx : p (f x) = true) : (update_first l q f).all p = true := by
  induction l with
  | nil => simp at hx
  | cons a as ih =>
    rw [List.all_cons, Bool.and_eq_true] at hall
    cases hqa : q a with
    | true =>
      rw [List.find?_cons, hqa] at hx
      injection hx with hx
      subst hx
      simp only [update_first, hqa, if_true, List.all_cons, Bool.and_eq_true]
      exact ⟨hfx, hall.2⟩
    | false =>
      rw [List.find?_cons, hqa] at hx
      simp only [update_first, hqa, Bool.false_eq_true, if_false,
        List.all_cons, Bool.and_eq_true]
      exact ⟨hall.1, ih hx hall.2⟩

/-- Lemma: `create_group` preserves the owner-membership invariant: the new group
is created with its owner as sole member. -/
theorem groups_ok_create_group (db : DB) (nm : String) (u2 : UserInDB)
    (nw : Time) (nid : OId) (h : groups_ok db = true) :
    groups_ok (create_group db nm u2 nw nid).2 = true := by
  unfold groups_ok at h ⊢
  unfold create_group
  simp only [List.all_append, Bool.and_eq_true]
  refine ⟨h, ?_⟩
  simp

/-- Lemma: `add_member_to_group` preserves the owner-membership invariant. -/
theorem groups_ok_add_member (db : DB) (gid : OId) (email : String)
    (u2 : UserInDB) (h : groups_ok db = true) :
    groups_ok (add_member_to_group db gid email u2).2 = true := by
  unfold add_member_to_group
  split
  · exact h
  · next g hg =>
    split
    · exact h
    · split
      · exact h
      · next user_to_add hu =>
        split
        · exact h
        · next hmem =>
          have hstep : groups_ok { db with
              groups := update_first db.groups (fun x => x.id == gid)
                (fun x =>
                  if x.members.contains user_to_add.id then x
                  else { x with
                         members := x.members ++ [user_to_add.id] }) }
              = true := by
            unfold groups_ok at h ⊢
            refine all_update_first_of_find? hg h ?_
            have hpg : g.members.contains g.owner_id = true :=
              List.all_eq_true.mp h g (List.mem_of_find?_eq_some hg)
            have hms : g.members.contains user_to_add.id = false :=
              Bool.not_eq_true _ ▸ Bool.eq_false_iff.mpr hmem
            simp only [hms, Bool.false_eq_true, if_false]
            exact contains_append_left_oid hpg
          simp only []
          split
          · exact hstep
          · exact hstep

/-- Lemma: `remove_member_from_group` preserves the owner-membership invariant:
the owner is never the pulled member on the success path. -/
theorem groups_ok_remove_member (db : DB) (gid mid : OId) (u2 : UserInDB)
    (h : groups_ok db = true) :
    groups_ok (remove_member_from_group db gid mid u2).2 = true := by
  unfold remove_member_from_group
  split
  · exact h
  · next g hg =>
    split
    · exact h
    · split
      · exact h
      · next hmid =>
        have hstep : groups_ok { db with
            groups := update_first db.groups (fun x => x.id == gid)
              (fun x =>
                { x with members := x.members.filter (fun m => !(m == mid)) }) }
            = true := by
          unfold groups_ok at h ⊢
          refine all_update_first_of_find? hg h ?_
          have hpg : g.members.contains g.owner_id = true :=
            List.all_eq_true.mp h g (List.mem_of_find?_eq_some hg)
          exact contains_filter_ne_oid hpg (fun hx => hmid hx.symm)
        simp only []
        split
        · exact hstep
        · exact hstep

/-- Every single group operation preserves the owner-membership
invariant. -/
theorem groups_ok_apply_group_op {db : DB} {op : GroupOp}
    (h : groups_ok db = true) : groups_ok (apply_group_op db op) = true := by
  cases op with
  | create nm u2 nw nid => exact groups_ok_create_group db nm u2 nw nid h
  | add gid email u2 => exact groups_ok_add_member db gid email u2 h
  | remove gid mid u2 => exact groups_ok_remove_member db gid mid u2 h

/-- Every sequence of group operations preserves the owner-membership
invariant. -/
theorem groups_ok_apply_group_ops (ops : List GroupOp) :
    ∀ db : DB, groups_ok db = true →
      groups_ok (apply_group_ops db ops) = true := by
  induction ops with
  | nil => intro db h; exact h
  | cons op rest ih =>
      intro db h
      exact ih (apply_group_op db op) (groups_ok_apply_group_op h)

/-- Claim C10, counterexample: the claim's "removeMember with memberId
equal to the owner's id always fails BadRequest" is false as stated.  In
the concrete state, user 10 owns group 1, yet when the non-owner member
user 11 calls removeMember(group 1, member 10) the call fails Forbidden
(status 403, from the owner-only check that runs first), not BadRequest
(status 400). -/
theorem C10_remove_owner_forbidden_counterexample :
    (db_grp.groups.find? (fun g => g.id == 1)).map Group.owner_id = some 10
    ∧ remove_member_from_group db_grp 1 10 user11
        = (.error (.http ⟨403, "Only the group owner can remove members."⟩),
           db_grp)
    ∧ err_status (remove_member_from_group db_grp 1 10 user11).1 = some 403 :=
  ⟨rfl, rfl, rfl⟩

/-- Claim C10 (amended): the group owner invariant holds — any state whose
groups all contain their owner keeps that property under every sequence of
createGroup / addMember / removeMember; createGroup initialises the
members array to exactly the owner; and removeMember targeting the
owner's id never changes the state and always fails — with BadRequest
when the caller is the owner, and with Forbidden when the caller is not
(the ownership check precedes the owner-removal check, so non-owner
callers get 403 rather than the claimed 400). -/
theorem C10_owner_invariant_amended (db : DB) (ops : List GroupOp)
    (gid mid : OId) (u : UserInDB) (g : Group)
    (h_ok : groups_ok db = true)
    (h_find : db.groups.find? (fun x => x.id == gid) = some g)
    (h_mid : mid = g.owner_id) :
    groups_ok (apply_group_ops db ops) = true
    ∧ (∀ nm (u2 : UserInDB) (nw : Time) (nid : OId),
        (create_group db nm u2 nw nid).2.groups
          = db.groups ++ [{ id := nid, name := nm, owner_id := u2.id,
                            members := [u2.id], created_at := nw }])
    ∧ (remove_member_from_group db gid mid u).2 = db
    ∧ (u.id = g.owner_id →
        (remove_member_from_group db gid mid u).1
          = .error (.http ⟨400, "Owner cannot be removed from the group."⟩))
    ∧ (u.id ≠ g.owner_id →
        (remove_member_from_group db gid mid u).1
          = .error (.http ⟨403,
              "Only the group owner can remove members."⟩)) := by
  have hfo : find_one db.groups (fun x => x.id == gid) = some g := h_find
  refine ⟨groups_ok_apply_group_ops ops db h_ok,
    fun nm u2 nw nid => rfl, ?_, ?_, ?_⟩
  · unfold remove_member_from_group
    rw [hfo]
    by_cases ho : g.owner_id ≠ u.id
    · simp [ho]
    · simp [ho, h_mid]
  · intro hu
    unfold remove_member_from_group
    rw [hfo]
    simp [hu, h_mid]
  · intro hu
    have ho : g.owner_id ≠ u.id := fun hx => hu hx.symm
    unfold remove_member_from_group
    rw [hfo]
    simp [ho]

/-- Witness for C10 (amended): in the concrete group state, an unrelated
member removal preserves the invariant, group creation stores exactly
the owner as first member, and removing the owner (id 10) by the owner
themselves fails 400 with the state unchanged. -/
theorem C10_owner_invariant_amended_witness :
    groups_ok (apply_group_ops db_grp [GroupOp.remove 1 11 user10]) = true
    ∧ (∀ nm (u2 : UserInDB) (nw : Time) (nid : OId),
        (create_group db_grp nm u2 nw nid).2.groups
          = db_grp.groups ++ [{ id := nid, name := nm, owner_id := u2.id,
                                members := [u2.id], created_at := nw }])
    ∧ (remove_member_from_group db_grp 1 10 user10).2 = db_grp
    ∧ (user10.id = grp1.owner_id →
        (remove_member_from_group db_grp 1 10 user10).1
          = .error (.http ⟨400, "Owner cannot be removed from the group."⟩))
    ∧ (user10.id ≠ grp1.owner_id →
        (remove_member_from_group db_grp 1 10 user10).1
          = .error (.http ⟨403,
              "Only the group owner can remove members."⟩)) :=
  C10_owner_invariant_amended db_grp [GroupOp.remove 1 11 user10] 1 10
    user10 grp1 (by decide) rfl rfl

/-- Claim C3: a refresh token is single-use.  If rotating raw token `t`
succeeded (and the session store held at most one session hashing `t`, per
the stated Session uniqueness invariant, and the fresh token minted by the
rotation is a genuinely fresh value different from `t`), then after any
further sequence of rotations, logouts and logins that mint only tokens
other than `t`, presenting `t` again always fails 401 Unauthorized and
leaves the state unchanged: the first rotation atomically found-and-
deleted the session matching sha256(t), so the replay observes no
matching session. -/
theorem C3_refresh_token_single_use (db : DB) (t : Token) (now : Time)
    (fresh : Token) (resp : TokenResponse) (ops : List AuthOp)
    (h_uniq : db.sessions.countP
        (fun s => s.refresh_token_hash == sha256 t) ≤ 1)
    (h_fresh : fresh ≠ t)
    (h_ok : (refresh_access_token db t now fresh none none).1 = .ok resp)
    (h_ops : ∀ op ∈ ops, op.minted ≠ some t)
    (now2 : Time) (fresh2 : Token) :
    refresh_access_token
        (apply_auth_ops (refresh_access_token db t now fresh none none).2 ops)
        t now2 fresh2 none none
      = (.error (.http ⟨401, "Invalid or expired refresh token"⟩),
         apply_auth_ops (refresh_access_token db t now fresh none none).2
           ops) := by
  exact rotate_error_of_no_session
    (no_session_preserved_ops ops
      ((refresh_access_token db t now fresh none none).2)
      (no_session_after_rotate h_uniq h_fresh) h_ops) now2 fresh2 none none

/-- Witness for C3: rotating raw token 5 against the concrete store
succeeds, and after an unrelated logout the replay of token 5 fails 401
with no state change. -/
theorem C3_refresh_token_single_use_witness :
    refresh_access_token
        (apply_auth_ops (refresh_access_token db_auth 5 50 6 none none).2
          [AuthOp.logout 99])
        5 60 7 none none
      = (.error (.http ⟨401, "Invalid or expired refresh token"⟩),
         apply_auth_ops (refresh_access_token db_auth 5 50 6 none none).2
           [AuthOp.logout 99]) :=
  C3_refresh_token_single_use db_auth 5 50 6 resp_rot [AuthOp.logout 99]
    (by decide) (by decide) rfl (by decide) 60 7

/-- Claim C7: rotating a raw token whose session exists but is expired
fails 401 Unauthorized and nevertheless deletes the session (the
find-and-delete runs before the expiry check), so the state changes on
this error path; afterwards (given the stored hash was unique) any rotate
with the same token fails as if the token were unknown, with no further
state change, and a logout with the same token is a no-op. -/
theorem C7_expired_rotation_deletes_session (db : DB) (t : Token)
    (now : Time) (fresh : Token) (s : Session)
    (h_find : db.sessions.find?
        (fun x => x.refresh_token_hash == sha256 t) = some s)
    (h_exp : s.expires_at < now)
    (h_uniq : db.sessions.countP
        (fun x => x.refresh_token_hash == sha256 t) ≤ 1) :
    refresh_access_token db t now fresh none none
      = (.error (.http ⟨401, "Invalid or expired refresh token"⟩),
         { db with
           sessions := delete_first db.sessions
             (fun x => x.refresh_token_hash == sha256 t) })
    ∧ (∀ now2 fresh2,
        refresh_access_token (refresh_access_token db t now fresh none none).2
            t now2 fresh2 none none
          = (.error (.http ⟨401, "Invalid or expired refresh token"⟩),
             (refresh_access_token db t now fresh none none).2))
    ∧ logout_user (refresh_access_token db t now fresh none none).2 t
        = (refresh_access_token db t now fresh none none).2 := by
  have hmain : refresh_access_token db t now fresh none none
      = (.error (.http ⟨401, "Invalid or expired refresh token"⟩),
         { db with
           sessions := delete_first db.sessions
             (fun x => x.refresh_token_hash == sha256 t) }) := by
    unfold refresh_access_token find_one_and_delete
    simp only []
    rw [h_find]
    simp [h_exp]
  have hX : (refresh_access_token db t now fresh none none).2.sessions
      = delete_first db.sessions
          (fun x => x.refresh_token_hash == sha256 t) := by
    rw [hmain]
  have hno : ∀ s' ∈ (refresh_access_token db t now fresh none none).2.sessions,
      (s'.refresh_token_hash == sha256 t) = false := by
    intro s' hs'
    rw [hX] at hs'
    exact not_mem_after_delete_first h_uniq s' hs'
  refine ⟨hmain, ?_, ?_⟩
  · intro now2 fresh2
    exact rotate_error_of_no_session hno now2 fresh2 none none
  · unfold logout_user
    rw [delete_first_of_all_not hno]

/-- Witness for C7: at time 200 the stored session for raw token 5 (which
expired at 100) is deleted by the failing rotation, the replay fails with
no state change, and logout is a no-op. -/
theorem C7_expired_rotation_deletes_session_witness :
    refresh_access_token db_auth 5 200 6 none none
      = (.error (.http ⟨401, "Invalid or expired refresh token"⟩),
         { db_auth with
           sessions := delete_first db_auth.sessions
             (fun x => x.refresh_token_hash == sha256 5) })
    ∧ (∀ now2 fresh2,
        refresh_access_token (refresh_access_token db_auth 5 200 6 none none).2
            5 now2 fresh2 none none
          = (.error (.http ⟨401, "Invalid or expired refresh token"⟩),
             (refresh_access_token db_auth 5 200 6 none none).2))
    ∧ logout_user (refresh_access_token db_auth 5 200 6 none none).2 5
        = (refresh_access_token db_auth 5 200 6 none none).2 :=
  C7_expired_rotation_deletes_session db_auth 5 200 6 sess5 rfl (by decide)
    (by decide)

/-- Claim C9: for every account owned by the caller, `archive_account`
fails BadRequest whenever the balance is not exactly 0 and leaves the
state (in particular `is_archived`) unchanged; when the balance is exactly
0 it succeeds and sets `is_archived` to true. -/
theorem C9_archive_zero_balance (db : DB) (aid : OId) (u : UserInDB)
    (acc : Account)
    (h_find : db.accounts.find? (fun a => a.id == aid) = some acc)
    (h_owner : acc.user_id = some u.id) :
    (acc.balance ≠ 0 →
      archive_account db aid u
        = (.error (.http ⟨400,
            "Cannot archive an account with a non-zero balance. Please transfer the remaining balance first."⟩),
           db))
    ∧ (acc.balance = 0 →
      (archive_account db aid u).1 = .ok ()
      ∧ account_archived (archive_account db aid u).2 aid = some true
      ∧ account_balance (archive_account db aid u).2 aid = some 0) := by
  have hfo : find_one db.accounts
      (fun a => a.id == aid && a.user_id == some u.id) = some acc :=
    find?_and_of_find? h_find (by simp [h_owner])
  constructor
  · intro hb
    unfold archive_account
    rw [hfo]
    simp [hb]
  · intro hb
    unfold archive_account
    rw [hfo]
    simp only [hb, ne_eq, not_true_eq_false, ite_false, if_false]
    refine ⟨trivial, ?_, ?_⟩
    · unfold account_archived
      simp only []
      rw [find?_update_first (α := Account) (l := db.accounts)
        (p := fun a => a.id == aid)
        (f := fun a => { a with is_archived := true })
        (fun x hx => hx), h_find]
      rfl
    · unfold account_balance
      simp only []
      rw [find?_update_first (α := Account) (l := db.accounts)
        (p := fun a => a.id == aid)
        (f := fun a => { a with is_archived := true })
        (fun x hx => hx), h_find]
      simp [hb]

/-- Reduction of `update_transaction` on the success path of an
account-moving patch: the hypotheses fix the interesting scrutinees (the
transaction is found and owned by the caller, the patch carries no
category change and is non-empty), after which the body computes to its
reverse-then-apply normal form. -/
theorem update_transaction_eq_of_found (db : DB) (tid : OId)
    (patch : UpdateTransactionRequest) (u : UserInDB) (now : Date) (t0 : Txn)
    (h_find : db.transactions.find? (fun t => t.id == tid) = some t0)
    (h_owner : t0.user_id = u.id)
    (h_nocat : patch.category_id = none)
    (h_nonempty : patch.is_empty = false) :
    update_transaction db tid patch u now
      = (let updated := apply_update t0 patch none now
         let db1 := { db with
           transactions := update_first db.transactions
             (fun t => t.id == tid)
             (fun t => apply_update t patch none now) }
         let db2 :=
           match t0.account_id with
           | none => db1
           | some oa =>
               update_balance db1 oa t0.amount
                 (if t0.type = "income" then "subtract" else "add")
         let db3 :=
           match updated.account_id with
           | none => db2
           | some na =>
               update_balance db2 na updated.amount
                 (if updated.type = "income" then "add" else "subtract")
         (.ok { updated with account_id := none }, db3)) := by
  have hfo : find_one db.transactions
      (fun t => t.id == tid && t.user_id == u.id) = some t0 :=
    find?_and_of_find? h_find (by simp [h_owner])
  unfold update_transaction
  rw [hfo]
  simp only [h_nocat, h_nonempty, find_one_and_update, h_find,
    Bool.false_eq_true, if_false]
  simp

/-- Claim C6: a transaction update that moves the transaction to a
different account moves its balance effect entirely: the call succeeds,
the original account's balance is adjusted by the reverse of the original
transaction's effect (minus the amount if it was income, plus if it was
expense), the new account's balance by the applied effect of the updated
transaction (plus the updated amount if now income, minus if now
expense), and every other account document is untouched. -/
theorem C6_account_move_moves_effect (db : DB) (tid : OId)
    (patch : UpdateTransactionRequest) (u : UserInDB) (now : Date) (t0 : Txn)
    (oldA newA : OId)
    (h_find : db.transactions.find? (fun t => t.id == tid) = some t0)
    (h_owner : t0.user_id = u.id)
    (h_oldacct : t0.account_id = some oldA)
    (h_patch : patch.account_id = some newA)
    (h_nocat : patch.category_id = none)
    (h_ne : newA ≠ oldA) :
    (update_transaction db tid patch u now).1
      = .ok { apply_update t0 patch none now with account_id := none }
    ∧ account_balance (update_transaction db tid patch u now).2 oldA
      = (account_balance db oldA).map (fun b =>
          b + (if t0.type = "income" then -t0.amount else t0.amount))
    ∧ account_balance (update_transaction db tid patch u now).2 newA
      = (account_balance db newA).map (fun b =>
          b + (if patch.type.getD t0.type = "income"
               then patch.amount.getD t0.amount
               else -(patch.amount.getD t0.amount)))
    ∧ ∀ other, other ≠ oldA → other ≠ newA →
        (update_transaction db tid patch u now).2.accounts.find?
            (fun a => a.id == other)
          = db.accounts.find? (fun a => a.id == other) := by
  have h_nonempty : patch.is_empty = false := by
    simp [UpdateTransactionRequest.is_empty, h_patch]
  have hmain := update_transaction_eq_of_found db tid patch u now t0 h_find
    h_owner h_nocat h_nonempty
  have h_upacct : (apply_update t0 patch none now).account_id = some newA := by
    simp [apply_update, h_patch]
  have h_uptype : (apply_update t0 patch none now).type
      = patch.type.getD t0.type := rfl
  have h_upamt : (apply_update t0 patch none now).amount
      = patch.amount.getD t0.amount := rfl
  simp only [] at hmain
  rw [h_oldacct, h_upacct] at hmain
  simp only [] at hmain
  -- name the intermediate states
  have hdb1accounts :
      ({ db with
         transactions := update_first db.transactions
           (fun t => t.id == tid)
           (fun t => apply_update t patch none now) } : DB).accounts
        = db.accounts := rfl
  refine ⟨?_, ?_, ?_, ?_⟩
  · rw [hmain]
  · rw [hmain]
    simp only []
    rw [account_balance_update_balance_other _ newA _ _ oldA (Ne.symm h_ne)]
    rw [account_balance_update_balance]
    have hbase : account_balance { db with
        transactions := update_first db.transactions
          (fun t => t.id == tid)
          (fun t => apply_update t patch none now) } oldA
        = account_balance db oldA := rfl
    rw [hbase]
    by_cases hty : t0.type = "income"
    · simp [hty]
    · simp [hty]
  · rw [hmain]
    simp only []
    rw [account_balance_update_balance]
    rw [account_balance_update_balance_other _ oldA _ _ newA h_ne]
    have hbase : account_balance { db with
        transactions := update_first db.transactions
          (fun t => t.id == tid)
          (fun t => apply_update t patch none now) } newA
        = account_balance db newA := rfl
    rw [hbase, h_uptype, h_upamt]
    by_cases hty : patch.type.getD t0.type = "income"
    · simp [hty]
    · simp [hty]
  · intro other hne1 hne2
    rw [hmain]
    simp only []
    rw [find?_update_balance_other _ newA _ _ other hne2]
    rw [find?_update_balance_other _ oldA _ _ other hne1]

/-- Witness for C6: moving the concrete 30-expense from account 1
(balance 70) to account 2 (balance 50) restores account 1 to 100 and
drops account 2 to 20, touching no other account. -/
theorem C6_account_move_moves_effect_witness :
    (update_transaction db_move 5 patch_move user7 ⟨0, 1⟩).1
      = .ok { apply_update tx5 patch_move none ⟨0, 1⟩ with account_id := none }
    ∧ account_balance (update_transaction db_move 5 patch_move user7 ⟨0, 1⟩).2 1
      = (account_balance db_move 1).map (fun b =>
          b + (if tx5.type = "income" then -tx5.amount else tx5.amount))
    ∧ account_balance (update_transaction db_move 5 patch_move user7 ⟨0, 1⟩).2 2
      = (account_balance db_move 2).map (fun b =>
          b + (if patch_move.type.getD tx5.type = "income"
               then patch_move.amount.getD tx5.amount
               else -(patch_move.amount.getD tx5.amount)))
    ∧ ∀ other, other ≠ 1 → other ≠ 2 →
        (update_transaction db_move 5 patch_move user7 ⟨0, 1⟩).2.accounts.find?
            (fun a => a.id == other)
          = db_move.accounts.find? (fun a => a.id == other) :=
  C6_account_move_moves_effect db_move 5 patch_move user7 ⟨0, 1⟩ tx5 1 2
    rfl rfl rfl rfl rfl (by decide)

/-- Witness for C9: archiving the concrete account at balance 100 fails
with the 400 error and leaves the state unchanged; archiving the concrete
account at balance 0 succeeds and marks it archived. -/
theorem C9_archive_zero_balance_witness :
    (archive_account db_income 1 user7
      = (.error (.http ⟨400,
          "Cannot archive an account with a non-zero balance. Please transfer the remaining balance first."⟩),
         db_income))
    ∧ ((archive_account db_zero 1 user7).1 = .ok ()
       ∧ account_archived (archive_account db_zero 1 user7).2 1 = some true
       ∧ account_balance (archive_account db_zero 1 user7).2 1 = some 0) :=
  ⟨(C9_archive_zero_balance db_income 1 user7 acct1 rfl rfl).1 (by decide),
   (C9_archive_zero_balance db_zero 1 user7 acct_zero rfl rfl).2 rfl⟩

/-- Claim C2: for every state, request and authenticated user,
`create_transaction` raises `AttributeError` before any document is
written (the post state equals the input state), because it reads
`current_user._id` while `UserInDB` declares only the field `id` (with
storage alias `"_id"`) and no `_id` attribute; the same access pattern
makes `list_transactions`, the personal (`group_id = None`) branch of
`get_transaction_summary`, and all four category operations raise the
same `AttributeError` without touching the database. -/
theorem C2_create_transaction_attribute_error (db : DB)
    (req : CreateTransactionRequest) (u : UserInDB) (now : Date) (nid : OId)
    (year month : Int) (gid : Option OId) (cat : CategoryCreate)
    (cid : OId) (upd : UpdateCategoryRequest) (ty : Option String) :
    UserInDB.id_attr u "_id" = none
    ∧ create_transaction db req u now nid = (.error (.attributeError "_id"), db)
    ∧ list_transactions db u year month gid = .error (.attributeError "_id")
    ∧ get_transaction_summary db u year month none
        = .error (.attributeError "_id")
    ∧ create_category db cat u nid = (.error (.attributeError "_id"), db)
    ∧ list_categories db u ty = .error (.attributeError "_id")
    ∧ update_category db cid upd u = (.error (.attributeError "_id"), db)
    ∧ delete_category db cid u = (.error (.attributeError "_id"), db) :=
  ⟨rfl, rfl, rfl, rfl, rfl, rfl, rfl, rfl⟩

/-- Claim C1: the claimed balance invariant — in particular that
`create_transaction` adds the amount for an income transaction — fails on
the code.  At the concrete failing input (`db_income`, a valid income
request of amount 10 against account 1 at balance 100 = initial_balance),
the call raises `AttributeError` and leaves the balance at 100 instead of
110, so no sequence of create operations can ever deposit income; and
even in isolation the balance step is wrong: line 200 computes the
operation string `"income"` (not `"add"`) for an income transaction, and
`update_balance` subtracts for any string other than `"add"`, so the
would-be balance update takes 100 to 90, not 110. -/
theorem C1_balance_invariant_fails_on_create :
    create_transaction db_income income_req user7 ⟨0, 0⟩ 99
      = (.error (.attributeError "_id"), db_income)
    ∧ acct1.initial_balance = 100
    ∧ account_balance db_income 1 = some 100
    ∧ create_balance_operation "income" = "income"
    ∧ account_balance
        (update_balance db_income 1 income_req.amount
          (create_balance_operation income_req.type)) 1 = some 90 :=
  ⟨rfl, rfl, rfl, rfl, rfl⟩

/-- Claim C5: the spec's ledger round-trip scenario fails at its first
step.  Starting from an account with initial_balance = balance = 100,
creating the expense transaction of amount 30 raises `AttributeError`
instead of leaving the balance at 70: the state is unchanged, the balance
stays 100, and no transaction document is inserted, so the scenario's
later update and delete steps have nothing to operate on. -/
theorem C5_scenario_fails_at_create :
    create_transaction db_scenario expense_req30 user7 ⟨0, 0⟩ 50
      = (.error (.attributeError "_id"), db_scenario)
    ∧ account_balance db_scenario 1 = some 100
    ∧ (create_transaction db_scenario expense_req30 user7 ⟨0, 0⟩ 50).2.transactions
        = [] :=
  ⟨rfl, rfl, rfl⟩

/-- Claim C4: `list_transactions` with a group id matches neither half of
the claim.  User 7 *is* a member of group 20, which has a transaction
dated inside the queried month, yet the call raises `AttributeError`
(from `ObjectId(current_user._id)` on line 219, evaluated before the
membership check) instead of returning the group's transactions; and the
non-member user 9 gets the same `AttributeError` instead of Forbidden.
(The embedded definition also shows the group branch retaining the
`user_id` filter, so even without the attribute bug the result would be
restricted to the acting user's own transactions.) -/
theorem C4_list_transactions_fails :
    list_transactions db_group user7 2025 1 (some 20)
      = .error (.attributeError "_id")
    ∧ grp20.members.contains user7.id = true
    ∧ tx_grp.group_id = some 20
    ∧ in_window (month_start 2025 1) ((month_start 2025 1).add_months 1) tx_grp
        = true
    ∧ list_transactions db_group user9 2025 1 (some 20)
      = .error (.attributeError "_id") :=
  ⟨rfl, rfl, rfl, rfl, rfl⟩

/-- Claim C8: `get_transaction_summary` with a non-null group id performs
no membership check: for every state, acting user and group id it returns
the group's income and expense sums over the current and previous month
windows (never an error, in particular never Forbidden), the result is the
same for any two acting users, and it does not depend on the stored groups
collection at all. -/
theorem C8_summary_ignores_membership (db : DB) (u1 u2 : UserInDB)
    (year month : Int) (gid : OId) (groups' : List Group) :
    get_transaction_summary db u1 year month (some gid)
      = .ok
          ⟨⟨sum_amounts (db.transactions.filter (fun t =>
                in_window (month_start year month)
                  ((month_start year month).add_months 1) t &&
                t.group_id == some gid)) "income",
            sum_amounts (db.transactions.filter (fun t =>
                in_window (month_start year month)
                  ((month_start year month).add_months 1) t &&
                t.group_id == some gid)) "expense"⟩,
           ⟨sum_amounts (db.transactions.filter (fun t =>
                in_window ((month_start year month).add_months (-1))
                  (month_start year month) t &&
                t.group_id == some gid)) "income",
            sum_amounts (db.transactions.filter (fun t =>
                in_window ((month_start year month).add_months (-1))
                  (month_start year month) t &&
                t.group_id == some gid)) "expense"⟩⟩
    ∧ get_transaction_summary db u1 year month (some gid)
        = get_transaction_summary db u2 year month (some gid)
    ∧ get_transaction_summary { db with groups := groups' } u1 year month
        (some gid)
        = get_transaction_summary db u1 year month (some gid) :=
  ⟨rfl, rfl, rfl⟩

end Constellation
